import Mathlib

/-!
Verification of the census address-resolution module (src/openfido.py).

The embedding models the module as pure functions over an explicit process
state.  Library operations (shapely containment, geopandas shapefile
parsing, pickle round-trips, pandas dataframe operations, urllib fetches)
are represented by an environment record; dataframes are modelled as
ordered tables of rows with named cells; the filesystem cache and the two
module-level dataset globals are threaded as state.  Python name
resolution matters for this module (several referenced library names are
never imported), so every dereference of a module-level library name
checks a binding map carried in the environment; the binding map of the
source module itself is `pyBinds` below.
-/

namespace Census

/-- Cell values of a dataframe: strings, numbers (coordinates are modelled
as integers, since the code never computes with them and only hands them
to the geometry library), geometry handles, and NaN/None. -/
inductive Val where
  | str (s : String)
  | num (n : Int)
  | geo (g : Nat)
  | null
deriving DecidableEq, Repr

/-- Python truthiness of a cell value. -/
def pyTruthyVal : Val → Bool
  | .str s => s ≠ ""
  | .num n => n ≠ 0
  | .geo _ => true
  | .null => false

/-- Python truthiness of a configuration string. -/
def pyTruthy (s : String) : Bool := s ≠ ""

/-- One dataframe row: an association of column names to values.  A
geodata row keeps its geometry under the "geometry" column, as geopandas
does. -/
structure Row where
  cells : List (String × Val)
deriving DecidableEq, Repr

/-- Reading a cell; a missing cell reads as NaN (pandas alignment fill). -/
def Row.get (r : Row) (c : String) : Val := (r.cells.lookup c).getD .null

/-- Writing a cell: replace an existing cell in place, else append the
column at the end of the row (pandas column-assignment layout). -/
def Row.set (r : Row) (c : String) (v : Val) : Row :=
  if (r.cells.lookup c).isSome then
    ⟨r.cells.map (fun p => if p.1 = c then (c, v) else p)⟩
  else ⟨r.cells ++ [(c, v)]⟩

/-- A dataframe: ordered column names and ordered rows.  All dataframes
the module builds carry a RangeIndex (read_csv input, reset_index and
ignore_index results), so row labels coincide with positions and are not
modelled separately. -/
structure Table where
  cols : List String
  rows : List Row
deriving DecidableEq, Repr

/-- A column as a positional list of values. -/
def Table.col (t : Table) (c : String) : List Val := t.rows.map (fun r => r.get c)

/-- Column assignment `df[c] = series` where the series has a RangeIndex:
positional alignment, NaN-filling rows beyond the series length, replacing
an existing column or appending a new one. -/
def Table.setCol (t : Table) (c : String) (vals : List Val) : Table :=
  { cols := if c ∈ t.cols then t.cols else t.cols ++ [c],
    rows := t.rows.enum.map (fun p => p.2.set c ((vals.get? p.1).getD .null)) }

/-- Boolean-mask selection followed by `.reset_index()`: keep the matching
rows in order, moving their original positions into a leading "index"
column. -/
def Table.selectReset (t : Table) (pred : Row → Bool) : Table :=
  { cols := "index" :: t.cols,
    rows := (t.rows.enum.filter (fun p => pred p.2)).map
      (fun p => ⟨("index", Val.num p.1) :: p.2.cells⟩) }

/-- A point handed to the geometry library: Point(longitude, latitude). -/
structure Pt where
  lon : Int
  lat : Int
deriving DecidableEq, Repr

/-- Errors the modelled code can raise.  The module defines no error
classes of its own for the core path; it raises bare `Exception`s (`exn`)
and otherwise lets pandas/python errors propagate. -/
inductive Err where
  | exn (msg : String)
  | keyError (k : String)
  | valueError (msg : String)
  | nameError (n : String)
  | urlError
  | fileNotFound (path : String)
  | badZipFile
  | indexError
deriving DecidableEq, Repr

/-- An archive file in the cache directory: a complete download (whose
parse yields a table) or the remnant of an interrupted write. -/
inductive AFile where
  | full (t : Table)
  | part
deriving DecidableEq, Repr

/-- geopandas.read_file on a zip archive: parses a complete archive,
fails on a truncated one. -/
def readArchive : AFile → Except Err Table
  | .full t => .ok t
  | .part => .error .badZipFile

/-- The cache directory.  `strayStates`/`strayZip` record whether a file
exists at the extensionless paths `cachedir/states` / `cachedir/zipcodes`
(the paths the error handlers try to remove).  Per-digit zipcode caches
are an association list keyed by digit; a write conses (newest wins). -/
structure FS where
  statesZip : Option AFile
  statesGdf : Option Table
  strayStates : Bool
  zipZip : Option AFile
  zipGdfs : List (String × Table)
  zipNatGdf : Option Table
  strayZip : Bool
deriving DecidableEq, Repr

/-- Process state: the two module-level dataset globals, the filesystem
cache, a count of network fetch attempts, and the warning log. -/
structure PState where
  state_data : Option Table
  zipcode_data : Option Table
  fs : FS
  net : Nat
  log : List String
deriving DecidableEq, Repr

/-- The environment: external collaborators of the module.  `containsPt`
is the geometry library containment test; the two archives are what the
census endpoints serve; the Ok flags say whether urlopen and the body
read/write succeed; `libBound` is the map of module-level names that
resolve (Python name resolution). -/
structure Env where
  containsPt : Nat → Pt → Bool
  statesArchive : Table
  zipArchive : Table
  fetchStatesOk : Bool
  writeStatesOk : Bool
  fetchZipOk : Bool
  writeZipOk : Bool
  libBound : String → Bool

/-- Names bound at top level of src/openfido.py: the imports of lines
55-59 and the module-level definitions.  Notably pandas is bound only
under the alias pd, and urllib, geopandas and pickle are never bound. -/
def moduleNames : List String :=
  ["sys", "os", "json", "csv", "pd", "Point", "geocode", "reverse_geocode",
   "version", "NAME", "OPENFIDO_INPUT", "OPENFIDO_OUTPUT", "OPTIONS", "CONFIG",
   "MissingEnvironment", "MissingInput", "verbose", "error", "debug", "warning",
   "load_config", "state_tract_codes", "state_zipcode0",
   "main", "state_data", "get_states", "zipcode_data", "get_zipcodes"]

/-- Name resolution of the source module itself. -/
def pyBinds (n : String) : Bool := moduleNames.contains n

/-- Row-level containment test `df.contains(point)`: true when the row has
a geometry containing the point. -/
def rowContains (env : Env) (p : Pt) (r : Row) : Bool :=
  match r.get "geometry" with
  | .geo g => env.containsPt g p
  | _ => false

/-- The containment lookup `df[df.contains(point)].reset_index()` used by
both get_states and get_zipcodes. -/
def containsLookup (env : Env) (p : Pt) (t : Table) : Table :=
  t.selectReset (rowContains env p)

/-- Union of column lists in order of first appearance (pandas.concat). -/
def unionCols (ts : List Table) : List String :=
  ts.foldl (fun acc t => acc ++ t.cols.filter (fun c => c ∉ acc)) []

/-- pandas.concat(list, ignore_index=True): fails on an empty list,
otherwise stacks the rows under the united columns. -/
def pandasConcat : List Table → Except Err Table
  | [] => .error (.valueError "No objects to concatenate")
  | ts => .ok { cols := unionCols ts, rows := (ts.map Table.rows).flatten }

/-- Python str.split on a comma: accumulate characters, breaking at each
comma (an empty input yields one empty field, as in Python). -/
def splitCommaAux : List Char → List Char → List String
  | [], acc => [String.mk acc.reverse]
  | c :: cs, acc =>
    if c = ',' then String.mk acc.reverse :: splitCommaAux cs []
    else splitCommaAux cs (c :: acc)

/-- Python spec.split(",") as used for the requested-field options. -/
def pySplitComma (s : String) : List String := splitCommaAux s.data []

/-- Python str.startswith. -/
def pyStartsWith (s pre : String) : Bool := pre.data.isPrefixOf s.data

/-- The download block of get_states (src lines 364-372): urlopen the
states URL, open cachedir/states.zip for writing, write the body; on a
body read/write failure the bare except runs os.remove on the
extensionless path cachedir/states.  The state is returned even when an
error propagates, since the filesystem effects survive the exception. -/
def downloadStates (env : Env) (st : PState) : PState × Except Err Unit :=
  if env.libBound "urllib" = false then (st, .error (.nameError "urllib"))
  else
    let st1 := { st with net := st.net + 1 }
    if env.fetchStatesOk = false then (st1, .error .urlError)
    else if env.writeStatesOk then
      ({ st1 with fs := { st1.fs with statesZip := some (.full env.statesArchive) } }, .ok ())
    else
      let st2 := { st1 with fs := { st1.fs with statesZip := some .part } }
      if st2.fs.strayStates then
        ({ st2 with fs := { st2.fs with strayStates := false } }, .ok ())
      else (st2, .error (.fileNotFound "cachedir/states"))

/-- The download block of get_zipcodes (src lines 410-418), mirroring
downloadStates on the zipcode paths. -/
def downloadZipcodes (env : Env) (st : PState) : PState × Except Err Unit :=
  if env.libBound "urllib" = false then (st, .error (.nameError "urllib"))
  else
    let st1 := { st with net := st.net + 1 }
    if env.fetchZipOk = false then (st1, .error .urlError)
    else if env.writeZipOk then
      ({ st1 with fs := { st1.fs with zipZip := some (.full env.zipArchive) } }, .ok ())
    else
      let st2 := { st1 with fs := { st1.fs with zipZip := some .part } }
      if st2.fs.strayZip then
        ({ st2 with fs := { st2.fs with strayZip := false } }, .ok ())
      else (st2, .error (.fileNotFound "cachedir/zipcodes"))

/-- The body of get_states guarded by `state_data is None` (src lines
360-383): download the archive if absent, then populate the global from
the pickled cache if present, else parse the archive and write the
cache. -/
def loadStates (env : Env) (st : PState) : Except Err PState :=
  match st.state_data with
  | some _ => .ok st
  | none =>
    let dl := if st.fs.statesZip.isNone then downloadStates env st else (st, .ok ())
    match dl with
    | (_, .error e) => .error e
    | (st1, .ok _) =>
      match st1.fs.statesGdf with
      | none =>
        if env.libBound "geopandas" = false then .error (.nameError "geopandas")
        else
          match st1.fs.statesZip with
          | none => .error (.fileNotFound "cachedir/states.zip")
          | some af =>
            match readArchive af with
            | .error e => .error e
            | .ok t =>
              if env.libBound "pickle" = false then .error (.nameError "pickle")
              else .ok { st1 with state_data := some t,
                                  fs := { st1.fs with statesGdf := some t } }
      | some t =>
        if env.libBound "pickle" = false then .error (.nameError "pickle")
        else .ok { st1 with state_data := some t }

/-- The query dispatch of get_states (src lines 385-398): a truthy
contains argument selects by containment, else a truthy value selects by
matching the given column, else everything is returned. -/
def queryStates (matchCol : String) (value : Option Val) (containsArg : Option Pt)
    (env : Env) (sd : Table) : Table :=
  match containsArg with
  | some p => containsLookup env p sd
  | none =>
    match value with
    | some v =>
      if pyTruthyVal v then sd.selectReset (fun r => r.get matchCol == v) else sd
    | none => sd

/-- get_states (src lines 341-398): load/memoize the state dataset, then
query it. -/
def get_states (matchCol : String) (value : Option Val) (containsArg : Option Pt)
    (env : Env) (st : PState) : Except Err (Table × PState) :=
  match loadStates env st with
  | .error e => .error e
  | .ok st1 =>
    match st1.state_data with
    | some sd => .ok (queryStates matchCol value containsArg env sd, st1)
    | none => .error (.exn "state_data is None after load")

/-- The body of get_zipcodes guarded by `zipcode_data is None` (src lines
405-447): download the national archive if absent; with a zipcode
argument use the per-digit cache (filtering the parsed archive to
features whose GEOID10 starts with the first character of the argument on
a cache miss), else the national cache. -/
def loadZipcodes (zipcodeArg : Option String) (env : Env) (st : PState) :
    Except Err PState :=
  match st.zipcode_data with
  | some _ => .ok st
  | none =>
    let dl := if st.fs.zipZip.isNone then downloadZipcodes env st else (st, .ok ())
    match dl with
    | (_, .error e) => .error e
    | (st1, .ok _) =>
      match zipcodeArg with
      | some z =>
        match z.data with
        | [] => .error .indexError
        | ch :: _ =>
          let digit := String.singleton ch
          match st1.fs.zipGdfs.lookup digit with
          | none =>
            if env.libBound "geopandas" = false then .error (.nameError "geopandas")
            else
              match st1.fs.zipZip with
              | none => .error (.fileNotFound "cachedir/zipcodes.zip")
              | some af =>
                match readArchive af with
                | .error e => .error e
                | .ok t =>
                  let td : Table :=
                    { cols := t.cols,
                      rows := t.rows.filter (fun r =>
                        match r.get "GEOID10" with
                        | .str s => s.data.head? = some ch
                        | _ => false) }
                  if env.libBound "pickle" = false then .error (.nameError "pickle")
                  else .ok { st1 with
                             zipcode_data := some td,
                             fs := { st1.fs with zipGdfs := (digit, td) :: st1.fs.zipGdfs } }
          | some t =>
            if env.libBound "pickle" = false then .error (.nameError "pickle")
            else .ok { st1 with zipcode_data := some t }
      | none =>
        match st1.fs.zipNatGdf with
        | none =>
          if env.libBound "geopandas" = false then .error (.nameError "geopandas")
          else
            match st1.fs.zipZip with
            | none => .error (.fileNotFound "cachedir/zipcodes.zip")
            | some af =>
              match readArchive af with
              | .error e => .error e
              | .ok t =>
                if env.libBound "pickle" = false then .error (.nameError "pickle")
                else .ok { st1 with
                           zipcode_data := some t,
                           fs := { st1.fs with zipNatGdf := some t } }
        | some t =>
          if env.libBound "pickle" = false then .error (.nameError "pickle")
          else .ok { st1 with zipcode_data := some t }

/-- The query dispatch of get_zipcodes (src lines 449-465): a truthy
contains argument selects by containment, else a truthy zipcode argument
selects GEOID10s starting with it, else everything is returned. -/
def queryZipcodes (zipcodeArg : Option String) (containsArg : Option Pt)
    (env : Env) (zd : Table) : Table :=
  match containsArg with
  | some p => containsLookup env p zd
  | none =>
    match zipcodeArg with
    | some z =>
      if z ≠ "" then
        zd.selectReset (fun r =>
          match r.get "GEOID10" with
          | .str s => pyStartsWith s z
          | _ => false)
      else zd
    | none => zd

/-- get_zipcodes (src lines 401-465): load/memoize the zipcode dataset,
then query it. -/
def get_zipcodes (zipcodeArg : Option String) (containsArg : Option Pt)
    (env : Env) (st : PState) : Except Err (Table × PState) :=
  match loadZipcodes zipcodeArg env st with
  | .error e => .error e
  | .ok st1 =>
    match st1.zipcode_data with
    | some zd => .ok (queryZipcodes zipcodeArg containsArg env zd, st1)
    | none => .error (.exn "zipcode_data is None after load")

/-- The static state-to-leading-ZIP-digit table (src lines 225-279).  The
source dict literal repeats the key DC with the same value; a Python dict
keeps one entry, so the duplicate is collapsed here. -/
def state_zipcode0 : List (String × String) :=
  [("AK", "9"), ("AL", "3"), ("AR", "7"), ("AZ", "8"), ("CA", "9"),
   ("CO", "8"), ("CT", "0"), ("DC", "2"), ("DE", "1"), ("FL", "3"),
   ("GA", "3"), ("HI", "9"), ("IA", "56"), ("ID", "8"), ("IL", "6"),
   ("IN", "4"), ("KS", "6"), ("KY", "4"), ("LA", "7"), ("MA", "0"),
   ("MD", "2"), ("ME", "0"), ("MI", "4"), ("MN", "5"), ("MO", "6"),
   ("MS", "3"), ("MT", "5"), ("NC", "2"), ("ND", "5"), ("NE", "6"),
   ("NH", "3"), ("NJ", "0"), ("NM", "8"), ("NV", "8"), ("NY", "01"),
   ("OH", "4"), ("OK", "7"), ("OR", "9"), ("PA", "1"), ("PR", "0"),
   ("RI", "0"), ("SC", "2"), ("SD", "5"), ("TN", "3"), ("TX", "78"),
   ("UT", "8"), ("VA", "2"), ("VT", "0"), ("WA", "9"), ("WI", "5"),
   ("WV", "2"), ("WY", "8")]

/-- Python float() applied to a cell.  Inputs come from read_csv, which
parses numeric columns as numbers; non-numeric cells fail the
conversion. -/
def pyFloat : Val → Except Err Int
  | .num n => .ok n
  | _ => .error (.valueError "could not convert value to float")

/-- Point(float(row.loc[longitude]), float(row.loc[latitude])), arguments
evaluated left to right as in the source. -/
def rowPoint (r : Row) : Except Err Pt :=
  match pyFloat (r.get "longitude") with
  | .error e => .error e
  | .ok lon =>
    match pyFloat (r.get "latitude") with
    | .error e => .error e
    | .ok lat => .ok { lon := lon, lat := lat }

/-- The per-row loop of the state group (src lines 290-297): with a state
column look the state up by value, else with both coordinate columns look
it up by containment, else raise.  The column tests read data.columns on
every iteration as the source does; results accumulate in order. -/
def stateLoop (cols : List String) (rows : List Row) (env : Env) (st : PState)
    (acc : List Table) : Except Err (List Table × PState) :=
  match rows with
  | [] => .ok (acc.reverse, st)
  | row :: rest =>
    if "state" ∈ cols then
      match get_states "STUSPS" (some (row.get "state")) none env st with
      | .error e => .error e
      | .ok (t, st1) => stateLoop cols rest env st1 (t :: acc)
    else if "latitude" ∈ cols ∧ "longitude" ∈ cols then
      match rowPoint row with
      | .error e => .error e
      | .ok p =>
        match get_states "STUSPS" none (some p) env st with
        | .error e => .error e
        | .ok (t, st1) => stateLoop cols rest env st1 (t :: acc)
    else
      .error (.exn "unable to process state data without latitude and longitude columns")

/-- The state-resolution step of the zipcode loop (src line 319):
`get_states(contains=pos)[STUSPS][0]` — containment query, STUSPS
column, element at label 0, which raises a KeyError on an empty
result. -/
def resolveRowState (p : Pt) (env : Env) (st : PState) : Except Err (Val × PState) :=
  match get_states "STUSPS" none (some p) env st with
  | .error e => .error e
  | .ok (t, st1) =>
    match (t.col "STUSPS").get? 0 with
    | none => .error (.keyError "0")
    | some v => .ok (v, st1)

/-- Dict access state_zipcode0[state] (src line 321): a KeyError unless
the key is a string present in the table. -/
def zip0Digits (v : Val) : Except Err String :=
  match v with
  | .str s =>
    match state_zipcode0.lookup s with
    | some ds => .ok ds
    | none => .error (.keyError s)
  | _ => .error (.keyError "non-string state key")

/-- The inner digit loop of the zipcode group (src lines 321-322):
iterate the characters of the digit string, probing get_zipcodes for
each.  Results are pushed onto the already-reversed accumulator. -/
def digitLoop (ds : List Char) (p : Pt) (env : Env) (st : PState)
    (acc : List Table) : Except Err (List Table × PState) :=
  match ds with
  | [] => .ok (acc, st)
  | c :: cs =>
    match get_zipcodes (some (String.singleton c)) (some p) env st with
    | .error e => .error e
    | .ok (t, st1) => digitLoop cs p env st1 (t :: acc)

/-- The per-row loop of the zipcode group (src lines 317-322). -/
def zipLoop (rows : List Row) (env : Env) (st : PState) (acc : List Table) :
    Except Err (List Table × PState) :=
  match rows with
  | [] => .ok (acc.reverse, st)
  | row :: rest =>
    match rowPoint row with
    | .error e => .error e
    | .ok p =>
      match resolveRowState p env st with
      | .error e => .error e
      | .ok (v, st1) =>
        match zip0Digits v with
        | .error e => .error e
        | .ok ds =>
          match digitLoop ds.data p env st1 acc with
          | .error e => .error e
          | .ok (acc1, st2) => zipLoop rest env st2 acc1

/-- The requested-field list (src lines 299-302, 324-327): all result
columns for "*", else the comma-separated split of the option. -/
def fieldlistFor (spec : String) (resultCols : List String) : List String :=
  if spec = "*" then resultCols else pySplitComma spec

/-- The merge loop (src lines 303-306, 328-331): for each requested field,
raise if it is absent from the result, else assign the result column onto
the record set in place.  The record set lives in a heap cell `r` so that
mutation and object identity are explicit. -/
def mergeFields (kind : String) (fl : List String) (result : Table) (r : Nat)
    (heap : Nat → Table) : Except Err (Nat → Table) :=
  match fl with
  | [] => .ok heap
  | f :: fs =>
    if f ∈ result.cols then
      mergeFields kind fs result r
        (fun x => if x = r then (heap r).setCol f (result.col f) else heap x)
    else .error (.exn ("field " ++ f ++ " is not found in " ++ kind ++ " data"))

/-- The state group of main (src lines 285-306). -/
def stateGroup (r : Nat) (heap : Nat → Table) (spec : String) (env : Env)
    (st : PState) : Except Err ((Nat → Table) × PState) :=
  match stateLoop (heap r).cols (heap r).rows env st [] with
  | .error e => .error e
  | .ok (results, st1) =>
    if env.libBound "pandas" = false then .error (.nameError "pandas")
    else
      match pandasConcat results with
      | .error e => .error e
      | .ok result =>
        match mergeFields "state" (fieldlistFor spec result.cols) result r heap with
        | .error e => .error e
        | .ok heap1 => .ok (heap1, st1)

/-- The zipcode group of main (src lines 308-331): the coordinate-column
check runs before the loop. -/
def zipcodeGroup (r : Nat) (heap : Nat → Table) (spec : String) (env : Env)
    (st : PState) : Except Err ((Nat → Table) × PState) :=
  if ¬ ("latitude" ∈ (heap r).cols ∧ "longitude" ∈ (heap r).cols) then
    .error (.exn "unable to process zipcode data without latitude and longitude columns")
  else
    match zipLoop (heap r).rows env st [] with
    | .error e => .error e
    | .ok (results, st1) =>
      if env.libBound "pandas" = false then .error (.nameError "pandas")
      else
        match pandasConcat results with
        | .error e => .error e
        | .ok result =>
          match mergeFields "zipcode" (fieldlistFor spec result.cols) result r heap with
          | .error e => .error e
          | .ok heap1 => .ok (heap1, st1)

/-- The option dict entries main reads. -/
structure Opts where
  state_fields : String
  zipcode_fields : String
  tract_fields : String
deriving DecidableEq, Repr

/-- The tract warning text (src line 335). -/
def tractMsg : String := "census tract is not implemented yet"

/-- main (src lines 281-338): run the state group when its field spec is
truthy, then the zipcode group, then the tract branch, which only logs a
warning and returns the record set.  The record set is passed and
returned as a heap reference; os.makedirs only touches the cache
directory and has no modelled effect. -/
def main (r : Nat) (heap : Nat → Table) (opts : Opts) (env : Env) (st : PState) :
    Except Err ((Nat × (Nat → Table)) × PState) :=
  match (if pyTruthy opts.state_fields
         then stateGroup r heap opts.state_fields env st
         else .ok (heap, st)) with
  | .error e => .error e
  | .ok (heap1, st1) =>
    match (if pyTruthy opts.zipcode_fields
           then zipcodeGroup r heap1 opts.zipcode_fields env st1
           else .ok (heap1, st1)) with
    | .error e => .error e
    | .ok (heap2, st2) =>
      if pyTruthy opts.tract_fields then
        .ok ((r, heap2), { st2 with log := st2.log ++ [tractMsg] })
      else .ok ((r, heap2), st2)

/-! Concrete fixtures for witnesses and counterexamples. -/

/-- Empty cache directory. -/
def fs0 : FS :=
  { statesZip := none, statesGdf := none, strayStates := false,
    zipZip := none, zipGdfs := [], zipNatGdf := none, strayZip := false }

/-- Fresh process state: both dataset globals unset, empty cache. -/
def st0 : PState :=
  { state_data := none, zipcode_data := none, fs := fs0, net := 0, log := [] }

/-- A state feature row. -/
def stateRow (ab : String) (g : Nat) : Row :=
  ⟨[("STUSPS", .str ab), ("geometry", .geo g)]⟩

/-- A two-state boundary dataset: DC with geometry 1, CA with geometry 2. -/
def sdDCCA : Table :=
  { cols := ["STUSPS", "geometry"], rows := [stateRow "DC" 1, stateRow "CA" 2] }

/-- A ZCTA feature row. -/
def zipRow (geoid : String) (g : Nat) : Row :=
  ⟨[("GEOID10", .str geoid), ("geometry", .geo g)]⟩

/-- A two-feature national zipcode archive: one GEOID10 starting with 0
(geometry 11) and one starting with 1 (geometry 12). -/
def zipArch01 : Table :=
  { cols := ["GEOID10", "geometry"], rows := [zipRow "02134" 11, zipRow "10001" 12] }

/-- The digit-0 partition of zipArch01. -/
def zipPart0 : Table :=
  { cols := ["GEOID10", "geometry"], rows := [zipRow "02134" 11] }

/-- The probe point used by the concrete runs. -/
def pt0 : Pt := { lon := 0, lat := 0 }

/-- An environment where every library name resolves, downloads succeed,
the archives are sdDCCA / zipArch01, and the containment test holds
exactly for geometry 12 (the ZCTA 10001 feature). -/
def envZ : Env :=
  { containsPt := fun g _ => g == 12, statesArchive := sdDCCA,
    zipArchive := zipArch01, fetchStatesOk := true, writeStatesOk := true,
    fetchZipOk := true, writeZipOk := true, libBound := fun _ => true }

/-- An environment where every library name resolves and the containment
test holds exactly for geometry 1 (the DC state feature). -/
def envDC : Env :=
  { containsPt := fun g _ => g == 1, statesArchive := sdDCCA,
    zipArchive := zipArch01, fetchStatesOk := true, writeStatesOk := true,
    fetchZipOk := true, writeZipOk := true, libBound := fun _ => true }

/-- An environment where every library name resolves and every geometry
contains every point (overlapping polygons). -/
def envAllContain : Env :=
  { containsPt := fun _ _ => true, statesArchive := sdDCCA,
    zipArchive := zipArch01, fetchStatesOk := true, writeStatesOk := true,
    fetchZipOk := true, writeZipOk := true, libBound := fun _ => true }

/-- A process state with the state dataset already memoized (mid-run). -/
def stLoaded : PState := { st0 with state_data := some sdDCCA }

/-- The record set of the C8 witness run: one coordinate row. -/
def c8data : Table :=
  { cols := ["latitude", "longitude"],
    rows := [⟨[("latitude", Val.num 38), ("longitude", Val.num (-77))]⟩] }

/-- A heap holding the witness record set in every cell. -/
def c8heap : Nat → Table := fun _ => c8data

/-- The merged state-group result of the witness run. -/
def c8result : Table :=
  { cols := ["index", "STUSPS", "geometry"],
    rows := [⟨[("index", Val.num 0), ("STUSPS", Val.str "DC"),
               ("geometry", Val.geo 1)]⟩] }

/-- The heap after the witness run: the record set gained a STUSPS column. -/
def c8heapFinal : Nat → Table :=
  fun x => if x = 0 then c8data.setCol "STUSPS" (c8result.col "STUSPS") else c8heap x

/-- The process state after the witness run: states downloaded, parsed,
cached and memoized. -/
def c8st2 : PState :=
  { st0 with state_data := some sdDCCA,
             fs := { fs0 with statesZip := some (.full sdDCCA),
                              statesGdf := some sdDCCA },
             net := 1 }

/-- The states of the module namespace: the environment whose name
resolution is the binding map of src/openfido.py itself. -/
def envPy : Env := { envDC with libBound := pyBinds }

/-- The record set of the C10 witness: one row with a state column. -/
def c10heap : Nat → Table :=
  fun _ => { cols := ["state"], rows := [⟨[("state", Val.str "CA")]⟩] }

/-- The process state after the first C1 call: the zipcode global holds
the digit-0 partition, which is also cached per digit on disk. -/
def c1st1 : PState :=
  { st0 with zipcode_data := some zipPart0,
             fs := { fs0 with zipZip := some (.full zipArch01),
                              zipGdfs := [("0", zipPart0)] },
             net := 1 }

/-- The record set of the C6 runs: one row with the invalid state "ZZ". -/
def c6heap : Nat → Table :=
  fun _ => { cols := ["state"], rows := [⟨[("state", Val.str "ZZ")]⟩] }

/-- The state-group result of the C6 run: an empty match set that still
carries the dataset columns. -/
def c6result : Table := { cols := ["index", "STUSPS", "geometry"], rows := [] }

/-- The heap after the C6 run: the ZZ row gained a null STUSPS cell. -/
def c6heapFinal : Nat → Table :=
  fun x => if x = 0 then (c6heap 0).setCol "STUSPS" (c6result.col "STUSPS")
           else c6heap x

/-- An empty record set with no columns. -/
def c7heap : Nat → Table := fun _ => Table.mk [] []

/-- A one-row record set with an unrelated column only. -/
def c7heapB : Nat → Table :=
  fun _ => { cols := ["x"], rows := [⟨[("x", Val.num 1)]⟩] }

/-- A one-row record set with a state column but no coordinates, whose
state group completes. -/
def c7heapC : Nat → Table :=
  fun _ => { cols := ["state"], rows := [⟨[("state", Val.str "CA")]⟩] }

/-- The state-group result of the completing C7 run: the CA feature row
(dataset position 1). -/
def c7resultC : Table :=
  { cols := ["index", "STUSPS", "geometry"],
    rows := [⟨[("index", Val.num 1), ("STUSPS", Val.str "CA"),
               ("geometry", Val.geo 2)]⟩] }

/-- The heap after the completing state group of the C7 run: the CA row
gained its STUSPS cell, still without coordinate columns. -/
def c7heapCFinal : Nat → Table :=
  fun x => if x = 0 then (c7heapC 0).setCol "STUSPS" (c7resultC.col "STUSPS")
           else c7heapC x

/-- An environment whose downloads fetch fine but whose body writes fail. -/
def envWriteFail : Env := { envZ with writeStatesOk := false, writeZipOk := false }

/-! Helper lemmas about the dataframe operations. -/

theorem lookup_map_set (c : String) (v : Val) :
    ∀ l : List (String × Val), (l.lookup c).isSome = true →
      (l.map (fun p => if p.1 = c then (c, v) else p)).lookup c = some v := by
  intro l h
  induction l with
  | nil => simp [List.lookup] at h
  | cons a as ih =>
    obtain ⟨a1, a2⟩ := a
    by_cases hc : a1 = c
    · subst hc
      simp only [List.map_cons, if_pos rfl]
      rw [List.lookup]
      simp
    · simp only [List.map_cons, if_neg hc]
      rw [List.lookup] at h ⊢
      have hb : (c == a1) = false := by
        simp only [beq_eq_false_iff_ne]
        exact fun hh => hc hh.symm
      simp only [hb] at h ⊢
      exact ih h

theorem lookup_map_set_ne (c cq : String) (v : Val) (hne : cq ≠ c) :
    ∀ l : List (String × Val),
      (l.map (fun p => if p.1 = c then (c, v) else p)).lookup cq = l.lookup cq := by
  intro l
  induction l with
  | nil => simp
  | cons a as ih =>
    by_cases hc : a.1 = c
    · simp only [List.map_cons, if_pos hc]
      rw [List.lookup, List.lookup]
      have h1 : (cq == c) = false := by simp [beq_eq_false_iff_ne, hne]
      have h2 : (cq == a.1) = false := by
        simp [beq_eq_false_iff_ne]
        intro hh; exact hne (hh.trans hc)
      simp only [h1, h2]
      exact ih
    · simp only [List.map_cons, if_neg hc]
      rw [List.lookup, List.lookup]
      cases hq : (cq == a.1) with
      | true => rfl
      | false => exact ih

theorem lookup_append_single (c : String) (v : Val) :
    ∀ l : List (String × Val), l.lookup c = none →
      (l ++ [(c, v)]).lookup c = some v := by
  intro l h
  induction l with
  | nil => simp [List.lookup]
  | cons a as ih =>
    rw [List.lookup] at h
    cases hq : (c == a.1) with
    | true => simp [hq] at h
    | false =>
      simp only [hq] at h
      rw [List.cons_append, List.lookup, hq]
      exact ih h

theorem lookup_append_single_ne (c cq : String) (v : Val) (hne : cq ≠ c) :
    ∀ l : List (String × Val), (l ++ [(c, v)]).lookup cq = l.lookup cq := by
  intro l
  induction l with
  | nil =>
    rw [List.nil_append, List.lookup, List.lookup]
    have hb : (cq == c) = false := by simp only [beq_eq_false_iff_ne]; exact hne
    simp [hb]
  | cons a as ih =>
    rw [List.cons_append, List.lookup, List.lookup]
    cases hq : (cq == a.1) with
    | true => rfl
    | false => exact ih

/-- Writing a cell then reading it back yields the written value. -/
theorem Row.get_set_same (r : Row) (c : String) (v : Val) :
    (r.set c v).get c = v := by
  unfold Row.set Row.get
  by_cases h : (r.cells.lookup c).isSome = true
  · simp only [if_pos h]
    rw [lookup_map_set c v r.cells h]
    rfl
  · simp only [if_neg h]
    have hn : r.cells.lookup c = none := by
      cases hx : r.cells.lookup c with
      | none => rfl
      | some x => rw [hx] at h; simp at h
    rw [lookup_append_single c v r.cells hn]
    rfl

/-- Writing one cell does not change the others. -/
theorem Row.get_set_ne (r : Row) (c cq : String) (v : Val) (h : cq ≠ c) :
    (r.set c v).get cq = r.get cq := by
  unfold Row.set Row.get
  by_cases hs : (r.cells.lookup c).isSome = true
  · simp only [if_pos hs]
    rw [lookup_map_set_ne c cq v h r.cells]
  · simp only [if_neg hs]
    rw [lookup_append_single_ne c cq v h r.cells]

/-- Column names after a column assignment. -/
theorem Table.setCol_cols (t : Table) (c : String) (vals : List Val) :
    (t.setCol c vals).cols = if c ∈ t.cols then t.cols else t.cols ++ [c] := rfl

/-- The assigned column is present afterwards. -/
theorem Table.mem_setCol_self (t : Table) (c : String) (vals : List Val) :
    c ∈ (t.setCol c vals).cols := by
  rw [Table.setCol_cols]
  by_cases h : c ∈ t.cols
  · simp [h]
  · simp [h]

/-- Previously present columns stay present after a column assignment. -/
theorem Table.mem_setCol_of_mem (t : Table) (c cq : String) (vals : List Val)
    (h : cq ∈ t.cols) : cq ∈ (t.setCol c vals).cols := by
  rw [Table.setCol_cols]
  by_cases hc : c ∈ t.cols
  · simpa [hc]
  · simp [hc, h]

theorem enumFrom_map_set_get (c cq : String) (vals : List Val) (h : cq ≠ c) :
    ∀ (l : List Row) (n : Nat),
      ((List.enumFrom n l).map
          (fun p => p.2.set c ((vals.get? p.1).getD .null))).map (fun r => r.get cq) =
        l.map (fun r => r.get cq) := by
  intro l
  induction l with
  | nil => intro n; rfl
  | cons a as ih =>
    intro n
    simp only [List.enumFrom, List.map_cons]
    rw [Row.get_set_ne a c cq _ h, ih (n + 1)]

/-- Assigning one column leaves every other column unchanged. -/
theorem Table.col_setCol_ne (t : Table) (c cq : String) (vals : List Val)
    (h : cq ≠ c) : (t.setCol c vals).col cq = t.col cq := by
  unfold Table.setCol Table.col
  simp only
  exact enumFrom_map_set_get c cq vals h t.rows 0

theorem enumFrom_filter_map_snd (pred : Row → Bool) :
    ∀ (l : List Row) (n : Nat),
      ((List.enumFrom n l).filter (fun p => pred p.2)).map Prod.snd = l.filter pred := by
  intro l
  induction l with
  | nil => intro n; rfl
  | cons a as ih =>
    intro n
    simp only [List.enumFrom]
    by_cases h : pred a = true
    · rw [List.filter_cons_of_pos, List.filter_cons_of_pos h, List.map_cons, ih (n + 1)]
      exact h
    · rw [List.filter_cons_of_neg, List.filter_cons_of_neg (by simpa using h), ih (n + 1)]
      simpa using h

/-- The rows a mask-plus-reset selection keeps are exactly the rows the
predicate accepts, in dataset order (the leading index cell aside). -/
theorem Table.selectReset_rows (t : Table) (pred : Row → Bool) :
    (t.selectReset pred).rows.map (fun r => Row.mk r.cells.tail) = t.rows.filter pred := by
  unfold Table.selectReset
  simp only [List.map_map]
  have : ((fun r => Row.mk r.cells.tail) ∘
      fun p : Nat × Row => Row.mk (("index", Val.num p.1) :: p.2.cells)) =
      fun p : Nat × Row => p.2 := by
    funext p; rfl
  rw [this]
  exact enumFrom_filter_map_snd pred t.rows 0

/-- A mask-plus-reset selection is empty iff no row passes the mask. -/
theorem Table.selectReset_rows_nil_iff (t : Table) (pred : Row → Bool) :
    (t.selectReset pred).rows = [] ↔ ∀ row ∈ t.rows, pred row = false := by
  constructor
  · intro h
    have h2 := Table.selectReset_rows t pred
    rw [h] at h2
    simp only [List.map_nil] at h2
    intro row hr
    by_contra hx
    have : row ∈ t.rows.filter pred := by
      rw [List.mem_filter]
      exact ⟨hr, by simpa using hx⟩
    rw [← h2] at this
    exact absurd this (List.not_mem_nil row)
  · intro h
    unfold Table.selectReset
    simp only
    rw [List.map_eq_nil_iff, List.filter_eq_nil_iff]
    intro p hp
    have hmem : p.2 ∈ t.rows := by
      have h1 : p.2 ∈ (List.enumFrom 0 t.rows).map Prod.snd :=
        List.mem_map_of_mem Prod.snd hp
      rwa [List.enumFrom_map_snd] at h1
    simpa using h p.2 hmem

/-! Lemmas about the cache accessors. -/

theorem downloadStates_shape (env : Env) (st : PState) :
    (downloadStates env st).1.net ≤ st.net + 1 ∧
    (downloadStates env st).1.state_data = st.state_data ∧
    (downloadStates env st).1.zipcode_data = st.zipcode_data := by
  by_cases h1 : env.libBound "urllib" = false <;>
  by_cases h2 : env.fetchStatesOk = false <;>
  by_cases h3 : env.writeStatesOk = true <;>
  by_cases h4 : st.fs.strayStates = true <;>
  simp [downloadStates, h1, h2, h3, h4]

theorem downloadZipcodes_shape (env : Env) (st : PState) :
    (downloadZipcodes env st).1.net ≤ st.net + 1 ∧
    (downloadZipcodes env st).1.state_data = st.state_data ∧
    (downloadZipcodes env st).1.zipcode_data = st.zipcode_data := by
  by_cases h1 : env.libBound "urllib" = false <;>
  by_cases h2 : env.fetchZipOk = false <;>
  by_cases h3 : env.writeZipOk = true <;>
  by_cases h4 : st.fs.strayZip = true <;>
  simp [downloadZipcodes, h1, h2, h3, h4]

/-- A successful load leaves the state global set and performs at most one
fetch. -/
theorem loadStates_ok_shape (env : Env) (st st1 : PState)
    (h : loadStates env st = .ok st1) :
    (∃ sd, st1.state_data = some sd) ∧ st1.net ≤ st.net + 1 := by
  unfold loadStates at h
  cases hsd : st.state_data with
  | some t =>
    simp only [hsd, Except.ok.injEq] at h
    subst h
    exact ⟨⟨t, hsd⟩, Nat.le_succ _⟩
  | none =>
    simp only [hsd] at h
    have hdst : ∀ (stx : PState),
        (if st.fs.statesZip.isNone = true then downloadStates env st
         else (st, Except.ok ())) = (stx, Except.ok ()) →
        stx.net ≤ st.net + 1 := by
      intro stx hx
      have hdl := downloadStates_shape env st
      by_cases hz : st.fs.statesZip.isNone = true
      · rw [if_pos hz] at hx
        rw [hx] at hdl
        exact hdl.1
      · rw [if_neg hz] at hx
        have h2 := congrArg Prod.fst hx
        simp only at h2
        subst h2
        omega
    generalize hg : (if st.fs.statesZip.isNone = true then downloadStates env st
        else (st, Except.ok ())) = dl at h
    obtain ⟨stx, dres⟩ := dl
    cases dres with
    | error e => simp at h
    | ok u =>
      have hnet : stx.net ≤ st.net + 1 := hdst stx hg
      simp only at h
      split at h
      next heq3 =>
        split at h
        next hgp => exact absurd h (by simp)
        next hgp =>
          split at h
          next heq4 => exact absurd h (by simp)
          next af heq4 =>
            split at h
            next e heq5 => exact absurd h (by simp)
            next t heq5 =>
              split at h
              next hpk => exact absurd h (by simp)
              next hpk =>
                simp only [Except.ok.injEq] at h
                subst h
                exact ⟨⟨t, rfl⟩, by simpa using hnet⟩
      next t heq3 =>
        split at h
        next hpk => exact absurd h (by simp)
        next hpk =>
          simp only [Except.ok.injEq] at h
          subst h
          exact ⟨⟨t, rfl⟩, by simpa using hnet⟩

/-- A successful get_states call decomposes into a successful load and a
pure query of the memoized dataset. -/
theorem get_states_ok_inv (m : String) (v : Option Val) (c : Option Pt) (env : Env)
    (st : PState) (t1 : Table) (st1 : PState)
    (h : get_states m v c env st = .ok (t1, st1)) :
    loadStates env st = .ok st1 ∧
    ∃ sd, st1.state_data = some sd ∧ t1 = queryStates m v c env sd := by
  unfold get_states at h
  split at h
  next e heq => exact absurd h (by simp)
  next stx heq =>
    split at h
    next sd hsd =>
      simp only [Except.ok.injEq, Prod.mk.injEq] at h
      obtain ⟨h1, h2⟩ := h
      subst h2
      exact ⟨heq, sd, hsd, h1.symm⟩
    next hsd => exact absurd h (by simp)

/-- get_states with the state global already set is a pure query. -/
theorem get_states_loaded (m : String) (v : Option Val) (c : Option Pt) (env : Env)
    (st : PState) (sd : Table) (h : st.state_data = some sd) :
    get_states m v c env st = .ok (queryStates m v c env sd, st) := by
  unfold get_states loadStates
  simp only [h]

/-- A successful load leaves the zipcode global set and performs at most
one fetch. -/
theorem loadZipcodes_ok_shape (z : Option String) (env : Env) (st st1 : PState)
    (h : loadZipcodes z env st = .ok st1) :
    (∃ zd, st1.zipcode_data = some zd) ∧ st1.net ≤ st.net + 1 := by
  unfold loadZipcodes at h
  cases hzd : st.zipcode_data with
  | some t =>
    simp only [hzd, Except.ok.injEq] at h
    subst h
    exact ⟨⟨t, hzd⟩, Nat.le_succ _⟩
  | none =>
    simp only [hzd] at h
    have hdst : ∀ (stx : PState),
        (if st.fs.zipZip.isNone = true then downloadZipcodes env st
         else (st, Except.ok ())) = (stx, Except.ok ()) →
        stx.net ≤ st.net + 1 := by
      intro stx hx
      have hdl := downloadZipcodes_shape env st
      by_cases hz : st.fs.zipZip.isNone = true
      · rw [if_pos hz] at hx
        rw [hx] at hdl
        exact hdl.1
      · rw [if_neg hz] at hx
        have h2 := congrArg Prod.fst hx
        simp only at h2
        subst h2
        omega
    generalize hg : (if st.fs.zipZip.isNone = true then downloadZipcodes env st
        else (st, Except.ok ())) = dl at h
    obtain ⟨stx, dres⟩ := dl
    cases dres with
    | error e => simp at h
    | ok u =>
      have hnet : stx.net ≤ st.net + 1 := hdst stx hg
      simp only at h
      repeat
        first
          | (simp only [Except.ok.injEq] at h; subst h;
             exact ⟨⟨_, rfl⟩, by simpa using hnet⟩)
          | split at h
          | simp at h

/-- A successful get_zipcodes call decomposes into a successful load and a
pure query of the memoized dataset. -/
theorem get_zipcodes_ok_inv (z : Option String) (c : Option Pt) (env : Env)
    (st : PState) (t1 : Table) (st1 : PState)
    (h : get_zipcodes z c env st = .ok (t1, st1)) :
    loadZipcodes z env st = .ok st1 ∧
    ∃ zd, st1.zipcode_data = some zd ∧ t1 = queryZipcodes z c env zd := by
  unfold get_zipcodes at h
  split at h
  next e heq => exact absurd h (by simp)
  next stx heq =>
    split at h
    next zd hzd =>
      simp only [Except.ok.injEq, Prod.mk.injEq] at h
      obtain ⟨h1, h2⟩ := h
      subst h2
      exact ⟨heq, zd, hzd, h1.symm⟩
    next hzd => exact absurd h (by simp)

/-- get_zipcodes with the zipcode global already set is a pure query:
the load logic, including the per-digit partition selection, is skipped
entirely. -/
theorem get_zipcodes_loaded (z : Option String) (c : Option Pt) (env : Env)
    (st : PState) (zd : Table) (h : st.zipcode_data = some zd) :
    get_zipcodes z c env st = .ok (queryZipcodes z c env zd, st) := by
  unfold get_zipcodes loadZipcodes
  simp only [h]

/-- C3: for each cache accessor and key, a second call from the state the
first successful call produced returns the same dataset and the same
state: the dataset is memoized process-wide, never reloaded, and the two
calls together perform at most one network fetch (the first call adds at
most one to the fetch count, the second adds none since it does not
change the state at all). -/
theorem c3_cacheIdempotent :
    (∀ (m : String) (v : Option Val) (c : Option Pt) (env : Env) (st : PState)
        (t1 : Table) (st1 : PState),
       get_states m v c env st = .ok (t1, st1) →
       get_states m v c env st1 = .ok (t1, st1) ∧
       st1.net ≤ st.net + 1 ∧ st1.state_data.isSome = true) ∧
    (∀ (z : Option String) (c : Option Pt) (env : Env) (st : PState)
        (t1 : Table) (st1 : PState),
       get_zipcodes z c env st = .ok (t1, st1) →
       get_zipcodes z c env st1 = .ok (t1, st1) ∧
       st1.net ≤ st.net + 1 ∧ st1.zipcode_data.isSome = true) := by
  constructor
  · intro m v c env st t1 st1 h
    obtain ⟨hload, sd, hsd, hq⟩ := get_states_ok_inv m v c env st t1 st1 h
    obtain ⟨⟨sd2, hsd2⟩, hnet⟩ := loadStates_ok_shape env st st1 hload
    refine ⟨?_, hnet, by simp [hsd]⟩
    rw [get_states_loaded m v c env st1 sd hsd, hq]
  · intro z c env st t1 st1 h
    obtain ⟨hload, zd, hzd, hq⟩ := get_zipcodes_ok_inv z c env st t1 st1 h
    obtain ⟨⟨zd2, hzd2⟩, hnet⟩ := loadZipcodes_ok_shape z env st st1 hload
    refine ⟨?_, hnet, by simp [hzd]⟩
    rw [get_zipcodes_loaded z c env st1 zd hzd, hq]

/-- Witness for C3: both parts applied to concrete successful first calls
(a fresh process, working downloads), discharging the hypotheses by
evaluation. -/
theorem c3_cacheIdempotent_witness :
    (get_states "STUSPS" none (some pt0) envDC
        { st0 with state_data := some sdDCCA,
                   fs := { fs0 with statesZip := some (.full sdDCCA) } } =
      .ok (queryStates "STUSPS" none (some pt0) envDC sdDCCA,
           { st0 with state_data := some sdDCCA,
                      fs := { fs0 with statesZip := some (.full sdDCCA) } }) ∧
     ({ st0 with state_data := some sdDCCA,
                 fs := { fs0 with statesZip := some (.full sdDCCA) } } : PState).net ≤
       ({ st0 with state_data := some sdDCCA,
                   fs := { fs0 with statesZip := some (.full sdDCCA) } } : PState).net + 1 ∧
     ({ st0 with state_data := some sdDCCA,
                 fs := { fs0 with statesZip := some (.full sdDCCA) } } : PState).state_data.isSome
       = true) ∧
    (get_zipcodes (some "0") (some pt0) envZ
        { st0 with zipcode_data := some zipPart0 } =
      .ok (queryZipcodes (some "0") (some pt0) envZ zipPart0,
           { st0 with zipcode_data := some zipPart0 }) ∧
     ({ st0 with zipcode_data := some zipPart0 } : PState).net ≤
       ({ st0 with zipcode_data := some zipPart0 } : PState).net + 1 ∧
     ({ st0 with zipcode_data := some zipPart0 } : PState).zipcode_data.isSome = true) :=
  ⟨c3_cacheIdempotent.1 "STUSPS" none (some pt0) envDC
      { st0 with state_data := some sdDCCA,
                 fs := { fs0 with statesZip := some (.full sdDCCA) } }
      (queryStates "STUSPS" none (some pt0) envDC sdDCCA)
      { st0 with state_data := some sdDCCA,
                 fs := { fs0 with statesZip := some (.full sdDCCA) } } rfl,
   c3_cacheIdempotent.2 (some "0") (some pt0) envZ
      { st0 with zipcode_data := some zipPart0 }
      (queryZipcodes (some "0") (some pt0) envZ zipPart0)
      { st0 with zipcode_data := some zipPart0 } rfl⟩

/-! Frame lemmas for the merge loop and the two groups. -/

/-- The merge loop touches only the referenced record set, changes only
the columns in its field list, adds requested columns without duplicating
existing ones, and leaves every other column's values intact. -/
theorem mergeFields_frame :
    ∀ (fl : List String) (kind : String) (result : Table) (r : Nat)
      (heap heap1 : Nat → Table),
      mergeFields kind fl result r heap = .ok heap1 →
      (∀ x, x ≠ r → heap1 x = heap x) ∧
      (∀ c, c ∉ fl → (heap1 r).col c = (heap r).col c) ∧
      (∀ c, c ∈ fl → c ∈ (heap1 r).cols) ∧
      ∃ extra, (heap1 r).cols = (heap r).cols ++ extra ∧ ∀ c ∈ extra, c ∈ fl := by
  intro fl
  induction fl with
  | nil =>
    intro kind result r heap heap1 h
    unfold mergeFields at h
    injection h with h1
    subst h1
    exact ⟨fun x _ => rfl, fun c _ => rfl, fun c hc => absurd hc (List.not_mem_nil c),
      [], (List.append_nil _).symm, fun c hc => absurd hc (List.not_mem_nil c)⟩
  | cons f fs ih =>
    intro kind result r heap heap1 h
    unfold mergeFields at h
    split at h
    next hf =>
      set heapU : Nat → Table :=
        fun x => if x = r then (heap r).setCol f (result.col f) else heap x with hU
      obtain ⟨ih1, ih2, ih3, extra, ihext, ihmem⟩ :=
        ih kind result r heapU heap1 h
      have hUr : heapU r = (heap r).setCol f (result.col f) := by
        rw [hU]; simp
      refine ⟨?_, ?_, ?_, ?_⟩
      · intro x hx
        rw [ih1 x hx, hU]
        simp [hx]
      · intro c hc
        have hcf : c ≠ f := fun hh => hc (hh ▸ List.mem_cons_self f fs)
        have hcfs : c ∉ fs := fun hh => hc (List.mem_cons_of_mem f hh)
        rw [ih2 c hcfs, hUr, Table.col_setCol_ne _ _ _ _ hcf]
      · intro c hc
        rcases List.mem_cons.mp hc with hcf | hcfs
        · subst hcf
          have hin : c ∈ (heapU r).cols := by
            rw [hUr]; exact Table.mem_setCol_self _ _ _
          rw [ihext]
          exact List.mem_append_left extra hin
        · exact ih3 c hcfs
      · have hcolsU : (heapU r).cols = (heap r).cols ∨
            (heapU r).cols = (heap r).cols ++ [f] := by
          rw [hUr, Table.setCol_cols]
          by_cases hmem : f ∈ (heap r).cols
          · left; rw [if_pos hmem]
          · right; rw [if_neg hmem]
        rcases hcolsU with hc0 | hc0
        · exact ⟨extra, by rw [ihext, hc0],
            fun c hc => List.mem_cons_of_mem f (ihmem c hc)⟩
        · refine ⟨[f] ++ extra, ?_, ?_⟩
          · rw [ihext, hc0, List.append_assoc]
          · intro c hc
            rcases List.mem_append.mp hc with hc1 | hc2
            · have hcf := List.mem_singleton.mp hc1
              simp [hcf]
            · exact List.mem_cons_of_mem f (ihmem c hc2)
    next hf => exact absurd h (by simp)

/-- A successful state group run decomposes into the loop, the concat and
the merge, with the merge field list determined by the spec string. -/
theorem stateGroup_frame (r : Nat) (heap heap1 : Nat → Table) (spec : String)
    (env : Env) (st st1 : PState)
    (h : stateGroup r heap spec env st = .ok (heap1, st1)) :
    ∃ fl : List String,
      (spec ≠ "*" → fl = pySplitComma spec) ∧
      (∀ x, x ≠ r → heap1 x = heap x) ∧
      (∀ c, c ∉ fl → (heap1 r).col c = (heap r).col c) ∧
      (∀ c, c ∈ fl → c ∈ (heap1 r).cols) ∧
      ∃ extra, (heap1 r).cols = (heap r).cols ++ extra ∧ ∀ c ∈ extra, c ∈ fl := by
  unfold stateGroup at h
  cases hloop : stateLoop (heap r).cols (heap r).rows env st [] with
  | error e => simp [hloop] at h
  | ok p =>
    obtain ⟨results, st2⟩ := p
    simp only [hloop] at h
    by_cases hpd : env.libBound "pandas" = false
    · rw [if_pos hpd] at h
      simp at h
    · rw [if_neg hpd] at h
      cases hcc : pandasConcat results with
      | error e => simp [hcc] at h
      | ok result =>
        simp only [hcc] at h
        cases hmg : mergeFields "state" (fieldlistFor spec result.cols) result r heap with
        | error e => simp [hmg] at h
        | ok heap2 =>
          simp only [hmg, Except.ok.injEq, Prod.mk.injEq] at h
          obtain ⟨h1, h2⟩ := h
          subst h1
          obtain ⟨m1, m2, m3, m4⟩ := mergeFields_frame _ _ _ _ _ _ hmg
          refine ⟨fieldlistFor spec result.cols, ?_, m1, m2, m3, m4⟩
          intro hs
          unfold fieldlistFor
          rw [if_neg hs]

/-- A successful zipcode group run has the same frame shape. -/
theorem zipcodeGroup_frame (r : Nat) (heap heap1 : Nat → Table) (spec : String)
    (env : Env) (st st1 : PState)
    (h : zipcodeGroup r heap spec env st = .ok (heap1, st1)) :
    ∃ fl : List String,
      (spec ≠ "*" → fl = pySplitComma spec) ∧
      (∀ x, x ≠ r → heap1 x = heap x) ∧
      (∀ c, c ∉ fl → (heap1 r).col c = (heap r).col c) ∧
      (∀ c, c ∈ fl → c ∈ (heap1 r).cols) ∧
      ∃ extra, (heap1 r).cols = (heap r).cols ++ extra ∧ ∀ c ∈ extra, c ∈ fl := by
  unfold zipcodeGroup at h
  by_cases hcols : ¬ ("latitude" ∈ (heap r).cols ∧ "longitude" ∈ (heap r).cols)
  · rw [if_pos hcols] at h
    simp at h
  · rw [if_neg hcols] at h
    cases hloop : zipLoop (heap r).rows env st [] with
    | error e => simp [hloop] at h
    | ok p =>
      obtain ⟨results, st2⟩ := p
      simp only [hloop] at h
      by_cases hpd : env.libBound "pandas" = false
      · rw [if_pos hpd] at h
        simp at h
      · rw [if_neg hpd] at h
        cases hcc : pandasConcat results with
        | error e => simp [hcc] at h
        | ok result =>
          simp only [hcc] at h
          cases hmg : mergeFields "zipcode" (fieldlistFor spec result.cols) result r heap with
          | error e => simp [hmg] at h
          | ok heap2 =>
            simp only [hmg, Except.ok.injEq, Prod.mk.injEq] at h
            obtain ⟨h1, h2⟩ := h
            subst h1
            obtain ⟨m1, m2, m3, m4⟩ := mergeFields_frame _ _ _ _ _ _ hmg
            refine ⟨fieldlistFor spec result.cols, ?_, m1, m2, m3, m4⟩
            intro hs
            unfold fieldlistFor
            rw [if_neg hs]

/-- A successful main run decomposes into optional group runs followed by
the tract branch, returning the input reference. -/
theorem main_ok_decompose (r : Nat) (heap : Nat → Table) (opts : Opts) (env : Env)
    (st : PState) (rh : Nat × (Nat → Table)) (st2 : PState)
    (h : main r heap opts env st = .ok (rh, st2)) :
    ∃ (heap1 : Nat → Table) (st1 : PState) (heap2 : Nat → Table) (stb : PState),
      ((pyTruthy opts.state_fields = true ∧
          stateGroup r heap opts.state_fields env st = .ok (heap1, st1)) ∨
        (pyTruthy opts.state_fields = false ∧ heap1 = heap ∧ st1 = st)) ∧
      ((pyTruthy opts.zipcode_fields = true ∧
          zipcodeGroup r heap1 opts.zipcode_fields env st1 = .ok (heap2, stb)) ∨
        (pyTruthy opts.zipcode_fields = false ∧ heap2 = heap1 ∧ stb = st1)) ∧
      rh = (r, heap2) := by
  unfold main at h
  have hGs : ∀ (hp : Nat → Table) (sx : PState),
      ((if pyTruthy opts.tract_fields = true then
          (Except.ok ((r, hp), { sx with log := sx.log ++ [tractMsg] }) :
            Except Err ((Nat × (Nat → Table)) × PState))
        else Except.ok ((r, hp), sx)) = Except.ok (rh, st2)) → rh = (r, hp) := by
    intro hp sx hx
    by_cases ht : pyTruthy opts.tract_fields = true
    · rw [if_pos ht] at hx
      simp only [Except.ok.injEq, Prod.mk.injEq] at hx
      exact hx.1.symm
    · rw [if_neg ht] at hx
      simp only [Except.ok.injEq, Prod.mk.injEq] at hx
      exact hx.1.symm
  by_cases hs : pyTruthy opts.state_fields = true
  · rw [if_pos hs] at h
    cases hsg : stateGroup r heap opts.state_fields env st with
    | error e => rw [hsg] at h; simp at h
    | ok p =>
      obtain ⟨heap1, st1⟩ := p
      rw [hsg] at h
      simp only at h
      by_cases hz : pyTruthy opts.zipcode_fields = true
      · rw [if_pos hz] at h
        cases hzg : zipcodeGroup r heap1 opts.zipcode_fields env st1 with
        | error e => rw [hzg] at h; simp at h
        | ok q =>
          obtain ⟨heap2, stb⟩ := q
          rw [hzg] at h
          simp only at h
          exact ⟨heap1, st1, heap2, stb, Or.inl ⟨hs, rfl⟩, Or.inl ⟨hz, hzg⟩,
            hGs heap2 stb h⟩
      · rw [if_neg hz] at h
        simp only at h
        exact ⟨heap1, st1, heap1, st1, Or.inl ⟨hs, rfl⟩,
          Or.inr ⟨eq_false_of_ne_true hz, rfl, rfl⟩, hGs heap1 st1 h⟩
  · rw [if_neg hs] at h
    simp only at h
    by_cases hz : pyTruthy opts.zipcode_fields = true
    · rw [if_pos hz] at h
      cases hzg : zipcodeGroup r heap opts.zipcode_fields env st with
      | error e => rw [hzg] at h; simp at h
      | ok q =>
        obtain ⟨heap2, stb⟩ := q
        rw [hzg] at h
        simp only at h
        exact ⟨heap, st, heap2, stb, Or.inr ⟨eq_false_of_ne_true hs, rfl, rfl⟩,
          Or.inl ⟨hz, hzg⟩, hGs heap2 stb h⟩
    · rw [if_neg hz] at h
      simp only at h
      exact ⟨heap, st, heap, st, Or.inr ⟨eq_false_of_ne_true hs, rfl, rfl⟩,
        Or.inr ⟨eq_false_of_ne_true hz, rfl, rfl⟩, hGs heap st h⟩

/-- C8: main mutates the record set in place and returns the same object:
on every successful run the returned reference is the one passed in,
every other heap object is untouched, and there are per-group field lists
(the comma-split of each requested spec when it is not "*", empty when the
group is disabled) such that every column not named in them keeps its
original values, every named column is present in the result, and the
column list grows only by requested columns (existing ones are overwritten
in place, not duplicated). -/
theorem c8_inPlaceFrame :
    ∀ (r : Nat) (heap : Nat → Table) (opts : Opts) (env : Env) (st : PState)
      (rh : Nat × (Nat → Table)) (st2 : PState),
      main r heap opts env st = .ok (rh, st2) →
      rh.1 = r ∧
      (∀ x, x ≠ r → rh.2 x = heap x) ∧
      ∃ sfl zfl : List String,
        (pyTruthy opts.state_fields = false → sfl = []) ∧
        (opts.state_fields ≠ "*" → pyTruthy opts.state_fields = true →
          sfl = pySplitComma opts.state_fields) ∧
        (pyTruthy opts.zipcode_fields = false → zfl = []) ∧
        (opts.zipcode_fields ≠ "*" → pyTruthy opts.zipcode_fields = true →
          zfl = pySplitComma opts.zipcode_fields) ∧
        (∀ c, c ∉ sfl → c ∉ zfl → (rh.2 r).col c = (heap r).col c) ∧
        (∀ c, c ∈ sfl ∨ c ∈ zfl → c ∈ (rh.2 r).cols) ∧
        ∃ extra, (rh.2 r).cols = (heap r).cols ++ extra ∧
          ∀ c ∈ extra, c ∈ sfl ∨ c ∈ zfl := by
  intro r heap opts env st rh st2 h
  obtain ⟨heap1, st1, heap2, stb, hstate, hzip, hrh⟩ :=
    main_ok_decompose r heap opts env st rh st2 h
  have hsframe : ∃ sfl : List String,
      (pyTruthy opts.state_fields = false → sfl = []) ∧
      (opts.state_fields ≠ "*" → pyTruthy opts.state_fields = true →
        sfl = pySplitComma opts.state_fields) ∧
      (∀ x, x ≠ r → heap1 x = heap x) ∧
      (∀ c, c ∉ sfl → (heap1 r).col c = (heap r).col c) ∧
      (∀ c, c ∈ sfl → c ∈ (heap1 r).cols) ∧
      ∃ e1, (heap1 r).cols = (heap r).cols ++ e1 ∧ ∀ c ∈ e1, c ∈ sfl := by
    rcases hstate with ⟨hs, hsg⟩ | ⟨hs, rfl, rfl⟩
    · obtain ⟨fl, hflspec, f1, f2, f3, f4⟩ :=
        stateGroup_frame r heap heap1 opts.state_fields env st st1 hsg
      exact ⟨fl, fun hc => absurd hs (by simp [hc]),
        fun hns _ => hflspec hns, f1, f2, f3, f4⟩
    · exact ⟨[], fun _ => rfl, fun _ hc => absurd hc (by simp [hs]),
        fun x _ => rfl, fun c _ => rfl, fun c hc => absurd hc (List.not_mem_nil c),
        [], (List.append_nil _).symm, fun c hc => absurd hc (List.not_mem_nil c)⟩
  have hzframe : ∃ zfl : List String,
      (pyTruthy opts.zipcode_fields = false → zfl = []) ∧
      (opts.zipcode_fields ≠ "*" → pyTruthy opts.zipcode_fields = true →
        zfl = pySplitComma opts.zipcode_fields) ∧
      (∀ x, x ≠ r → heap2 x = heap1 x) ∧
      (∀ c, c ∉ zfl → (heap2 r).col c = (heap1 r).col c) ∧
      (∀ c, c ∈ zfl → c ∈ (heap2 r).cols) ∧
      ∃ e2, (heap2 r).cols = (heap1 r).cols ++ e2 ∧ ∀ c ∈ e2, c ∈ zfl := by
    rcases hzip with ⟨hz, hzg⟩ | ⟨hz, rfl, rfl⟩
    · obtain ⟨fl, hflspec, f1, f2, f3, f4⟩ :=
        zipcodeGroup_frame r heap1 heap2 opts.zipcode_fields env st1 stb hzg
      exact ⟨fl, fun hc => absurd hz (by simp [hc]),
        fun hns _ => hflspec hns, f1, f2, f3, f4⟩
    · exact ⟨[], fun _ => rfl, fun _ hc => absurd hc (by simp [hz]),
        fun x _ => rfl, fun c _ => rfl, fun c hc => absurd hc (List.not_mem_nil c),
        [], (List.append_nil _).symm, fun c hc => absurd hc (List.not_mem_nil c)⟩
  obtain ⟨sfl, hs0, hs1, hsoff, hscol, hsmem, e1, he1, he1m⟩ := hsframe
  obtain ⟨zfl, hz0, hz1, hzoff, hzcol, hzmem, e2, he2, he2m⟩ := hzframe
  subst hrh
  refine ⟨rfl, ?_, sfl, zfl, hs0, hs1, hz0, hz1, ?_, ?_, ?_⟩
  · intro x hx
    show heap2 x = heap x
    rw [hzoff x hx, hsoff x hx]
  · intro c hcs hcz
    show (heap2 r).col c = (heap r).col c
    rw [hzcol c hcz, hscol c hcs]
  · intro c hc
    show c ∈ (heap2 r).cols
    rcases hc with hc | hc
    · have := hsmem c hc
      rw [he2]
      exact List.mem_append_left e2 this
    · exact hzmem c hc
  · refine ⟨e1 ++ e2, ?_, ?_⟩
    · show (heap2 r).cols = (heap r).cols ++ (e1 ++ e2)
      rw [he2, he1, List.append_assoc]
    · intro c hc
      rcases List.mem_append.mp hc with hc | hc
      · exact Or.inl (he1m c hc)
      · exact Or.inr (he2m c hc)

/-- Witness for C8: the in-place frame theorem applied to a concrete
successful enrichment run (one Washington-DC coordinate row gaining the
STUSPS column from a fresh cache). -/
theorem c8_inPlaceFrame_witness :
    ((0 : Nat), c8heapFinal).1 = 0 ∧
    (∀ x, x ≠ 0 → ((0 : Nat), c8heapFinal).2 x = c8heap x) ∧
    ∃ sfl zfl : List String,
      (pyTruthy (Opts.mk "STUSPS" "" "").state_fields = false → sfl = []) ∧
      ((Opts.mk "STUSPS" "" "").state_fields ≠ "*" →
        pyTruthy (Opts.mk "STUSPS" "" "").state_fields = true →
        sfl = pySplitComma (Opts.mk "STUSPS" "" "").state_fields) ∧
      (pyTruthy (Opts.mk "STUSPS" "" "").zipcode_fields = false → zfl = []) ∧
      ((Opts.mk "STUSPS" "" "").zipcode_fields ≠ "*" →
        pyTruthy (Opts.mk "STUSPS" "" "").zipcode_fields = true →
        zfl = pySplitComma (Opts.mk "STUSPS" "" "").zipcode_fields) ∧
      (∀ c, c ∉ sfl → c ∉ zfl →
        (((0 : Nat), c8heapFinal).2 0).col c = (c8heap 0).col c) ∧
      (∀ c, c ∈ sfl ∨ c ∈ zfl → c ∈ (((0 : Nat), c8heapFinal).2 0).cols) ∧
      ∃ extra, (((0 : Nat), c8heapFinal).2 0).cols = (c8heap 0).cols ++ extra ∧
        ∀ c ∈ extra, c ∈ sfl ∨ c ∈ zfl :=
  c8_inPlaceFrame 0 c8heap (Opts.mk "STUSPS" "" "") envDC st0
    (0, c8heapFinal) c8st2 rfl

/-- C9: with a truthy tract_fields option, a run of main is exactly the
run with the tract group disabled plus the census-tract warning appended
on success: the tract branch is an explicit no-op that only warns, and
the returned record set is the one the earlier groups produced,
unchanged.  In particular every successful run emits the warning. -/
theorem c9_tractNoop :
    ∀ (r : Nat) (heap : Nat → Table) (opts : Opts) (env : Env) (st : PState),
      pyTruthy opts.tract_fields = true →
      (main r heap opts env st =
        (match main r heap (Opts.mk opts.state_fields opts.zipcode_fields "") env st with
         | .ok (x, stx) => .ok (x, { stx with log := stx.log ++ [tractMsg] })
         | .error e => .error e)) ∧
      (∀ (rh : Nat × (Nat → Table)) (st2 : PState),
        main r heap opts env st = .ok (rh, st2) → tractMsg ∈ st2.log) := by
  intro r heap opts env st ht
  obtain ⟨so, zo, tr⟩ := opts
  simp only at ht
  have heq : main r heap (Opts.mk so zo tr) env st =
      (match main r heap (Opts.mk so zo "") env st with
       | .ok (x, stx) => .ok (x, { stx with log := stx.log ++ [tractMsg] })
       | .error e => .error e) := by
    unfold main
    simp only
    cases h1 : (if pyTruthy so = true then stateGroup r heap so env st
        else Except.ok (heap, st)) with
    | error e => rfl
    | ok p =>
      obtain ⟨heap1, st1⟩ := p
      simp only
      cases h2 : (if pyTruthy zo = true then zipcodeGroup r heap1 zo env st1
          else Except.ok (heap1, st1)) with
      | error e => rfl
      | ok q =>
        obtain ⟨heap2, st2⟩ := q
        simp only
        rw [if_pos ht]
        simp [pyTruthy]
  refine ⟨heq, ?_⟩
  intro rh st2 hok
  rw [heq] at hok
  cases hx : main r heap (Opts.mk so zo "") env st with
  | error e => rw [hx] at hok; simp at hok
  | ok p =>
    obtain ⟨x, stx⟩ := p
    rw [hx] at hok
    simp only [Except.ok.injEq, Prod.mk.injEq] at hok
    obtain ⟨h1, h2⟩ := hok
    subst h2
    simp

/-- Witness for C9: the tract no-op equation applied to a concrete run
with only tract enrichment requested. -/
theorem c9_tractNoop_witness :
    (main 0 c8heap (Opts.mk "" "" "x") envDC st0 =
      (match main 0 c8heap (Opts.mk "" "" "") envDC st0 with
       | .ok (x, stx) => .ok (x, { stx with log := stx.log ++ [tractMsg] })
       | .error e => .error e)) ∧
    (∀ (rh : Nat × (Nat → Table)) (st2 : PState),
      main 0 c8heap (Opts.mk "" "" "x") envDC st0 = .ok (rh, st2) →
      tractMsg ∈ st2.log) := by
  have h := c9_tractNoop 0 c8heap (Opts.mk "" "" "x") envDC st0 (by rfl)
  exact h

/-- Under an unresolved urllib/geopandas/pickle namespace, loading the
state dataset fails with a NameError naming one of them, whatever the
cache contents. -/
theorem loadStates_unbound (env : Env) (st : PState)
    (hu : env.libBound "urllib" = false) (hg : env.libBound "geopandas" = false)
    (hp : env.libBound "pickle" = false) (hsd : st.state_data = none) :
    ∃ n, n ∈ ["urllib", "geopandas", "pickle"] ∧
      loadStates env st = .error (.nameError n) := by
  have hdl : downloadStates env st = (st, .error (.nameError "urllib")) := by
    unfold downloadStates
    rw [hu]
    simp
  by_cases hz : st.fs.statesZip.isNone = true
  · refine ⟨"urllib", by simp, ?_⟩
    unfold loadStates
    rw [hsd, if_pos hz, hdl]
  · cases hgd : st.fs.statesGdf with
    | none =>
      refine ⟨"geopandas", by simp, ?_⟩
      unfold loadStates
      rw [hsd, if_neg hz]
      simp only
      rw [hgd, hg]
      simp
    | some t =>
      refine ⟨"pickle", by simp, ?_⟩
      unfold loadStates
      rw [hsd, if_neg hz]
      simp only
      rw [hgd, hp]
      simp

/-- C10: the module namespace binds pandas only under the alias pd and
never binds urllib, geopandas or pickle; consequently, under the module
namespace, every main run on a nonempty record set that reaches the state
dataset load (state enrichment via a state column or via coordinate
containment, or zipcode enrichment with coordinate columns, from a fresh
process) raises a NameError for one of those library names instead of
returning enriched records. -/
theorem c10_unboundNames :
    (pyBinds "pd" = true ∧ pyBinds "pandas" = false ∧ pyBinds "urllib" = false ∧
     pyBinds "geopandas" = false ∧ pyBinds "pickle" = false) ∧
    (∀ (r : Nat) (heap : Nat → Table) (opts : Opts) (env : Env) (st : PState)
       (row : Row) (rest : List Row),
       env.libBound = pyBinds →
       st.state_data = none →
       (heap r).rows = row :: rest →
       ((pyTruthy opts.state_fields = true ∧ "state" ∈ (heap r).cols) ∨
        (pyTruthy opts.state_fields = true ∧ "state" ∉ (heap r).cols ∧
         "latitude" ∈ (heap r).cols ∧ "longitude" ∈ (heap r).cols ∧
         ∃ q, rowPoint row = .ok q) ∨
        (pyTruthy opts.state_fields = false ∧ pyTruthy opts.zipcode_fields = true ∧
         "latitude" ∈ (heap r).cols ∧ "longitude" ∈ (heap r).cols ∧
         ∃ q, rowPoint row = .ok q)) →
       ∃ n, n ∈ ["urllib", "geopandas", "pickle"] ∧
         main r heap opts env st = .error (.nameError n)) := by
  constructor
  · exact ⟨by decide, by decide, by decide, by decide, by decide⟩
  · intro r heap opts env st row rest henv hsd hrows hcase
    have hu : env.libBound "urllib" = false := by rw [henv]; decide
    have hg : env.libBound "geopandas" = false := by rw [henv]; decide
    have hp : env.libBound "pickle" = false := by rw [henv]; decide
    obtain ⟨n, hn, hload⟩ := loadStates_unbound env st hu hg hp hsd
    have hgs : ∀ (m : String) (v : Option Val) (c : Option Pt),
        get_states m v c env st = .error (.nameError n) := by
      intro m v c
      unfold get_states
      rw [hload]
    rcases hcase with ⟨hs, hmem⟩ | ⟨hs, hnostate, hlat, hlon, q, hq⟩ |
      ⟨hs, hz, hlat, hlon, q, hq⟩
    · have hsl : stateLoop (heap r).cols (heap r).rows env st [] =
          .error (.nameError n) := by
        rw [hrows]
        unfold stateLoop
        rw [if_pos hmem, hgs]
      have hsg : stateGroup r heap opts.state_fields env st =
          .error (.nameError n) := by
        unfold stateGroup
        rw [hsl]
      refine ⟨n, hn, ?_⟩
      unfold main
      rw [if_pos hs, hsg]
    · have hsl : stateLoop (heap r).cols (heap r).rows env st [] =
          .error (.nameError n) := by
        rw [hrows]
        unfold stateLoop
        rw [if_neg hnostate, if_pos ⟨hlat, hlon⟩, hq]
        simp only
        rw [hgs]
      have hsg : stateGroup r heap opts.state_fields env st =
          .error (.nameError n) := by
        unfold stateGroup
        rw [hsl]
      refine ⟨n, hn, ?_⟩
      unfold main
      rw [if_pos hs, hsg]
    · have hzl : zipLoop (heap r).rows env st [] = .error (.nameError n) := by
        rw [hrows]
        unfold zipLoop
        rw [hq]
        simp only
        unfold resolveRowState
        rw [hgs]
      have hzg : zipcodeGroup r heap opts.zipcode_fields env st =
          .error (.nameError n) := by
        unfold zipcodeGroup
        rw [if_neg (not_not_intro ⟨hlat, hlon⟩), hzl]
      refine ⟨n, hn, ?_⟩
      unfold main
      rw [if_neg (by simp [hs])]
      simp only
      rw [if_pos hz, hzg]

/-- Witness for C10: the NameError theorem applied to the module
namespace and a fresh process state, once for a one-row record set
carrying a state column and once for a coordinate-only record set (the
default Scenario A shape, state resolved by containment). -/
theorem c10_unboundNames_witness :
    (∃ n, n ∈ ["urllib", "geopandas", "pickle"] ∧
      main 0 c10heap (Opts.mk "STUSPS" "" "") envPy st0 = .error (.nameError n)) ∧
    (∃ n, n ∈ ["urllib", "geopandas", "pickle"] ∧
      main 0 c8heap (Opts.mk "STUSPS" "" "") envPy st0 = .error (.nameError n)) :=
  ⟨c10_unboundNames.2 0 c10heap (Opts.mk "STUSPS" "" "") envPy st0
      ⟨[("state", Val.str "CA")]⟩ [] rfl rfl rfl
      (Or.inl ⟨by rfl, by decide⟩),
   c10_unboundNames.2 0 c8heap (Opts.mk "STUSPS" "" "") envPy st0
      ⟨[("latitude", Val.num 38), ("longitude", Val.num (-77))]⟩ [] rfl rfl rfl
      (Or.inr (Or.inl ⟨by rfl, by decide, by decide, by decide,
        ⟨Pt.mk (-77) 38, rfl⟩⟩))⟩

/-- C2 (amended): the containment lookup never raises; its rows are
exactly the features whose polygons contain the point, in dataset order
(stripping the prepended index cell recovers them), and it is empty
precisely when no polygon of the dataset contains the point — no
NoMatchError exists, and with several containing polygons all of them are
returned, the first in dataset order first. -/
theorem c2_containsLookup_amended :
    ∀ (t : Table) (env : Env) (p : Pt),
      ((containsLookup env p t).rows.map (fun r => Row.mk r.cells.tail) =
        t.rows.filter (rowContains env p)) ∧
      ((containsLookup env p t).rows = [] ↔
        ∀ row ∈ t.rows, rowContains env p row = false) := by
  intro t env p
  exact ⟨Table.selectReset_rows t (rowContains env p),
    Table.selectReset_rows_nil_iff t (rowContains env p)⟩

/-- Counterexample to C2 as stated: a point strictly outside both state
polygons does not make the lookup fail — get_states returns an ordinary
empty result (and no NoMatchError type exists in the module at all). -/
theorem c2_noMatch_counterexample :
    get_states "STUSPS" none (some pt0) envZ stLoaded =
      .ok (Table.mk ["index", "STUSPS", "geometry"] [], stLoaded) ∧
    (∀ row ∈ sdDCCA.rows, rowContains envZ pt0 row = false) := by
  exact ⟨rfl, by decide⟩

/-- C1: get_zipcodes memoizes one partition for the whole process.  After
a first call for digit 0, a second call for digit 1 skips the per-digit
load (the global is non-None) and queries the memoized digit-0 partition,
so a point lying in ZCTA 10001 — a feature of the archive whose GEOID10
starts with 1 — finds no match: the call for digit 1 does not operate on
the digit-1 partition. -/
theorem c1_memoizedWrongPartition :
    get_zipcodes (some "0") (some pt0) envZ st0 =
      .ok (Table.mk ["index", "GEOID10", "geometry"] [], c1st1) ∧
    c1st1.zipcode_data = some zipPart0 ∧
    get_zipcodes (some "1") (some pt0) envZ c1st1 =
      .ok (Table.mk ["index", "GEOID10", "geometry"] [], c1st1) ∧
    rowContains envZ pt0 (zipRow "10001" 12) = true ∧
    zipRow "10001" 12 ∈ zipArch01.rows ∧
    (zipRow "10001" 12).get "GEOID10" = Val.str "10001" := by
  refine ⟨rfl, rfl, rfl, rfl, by decide, rfl⟩

/-- C5 counterexample: with two state polygons both containing the point,
the state-resolution step of the zipcode pipeline silently returns the
first match (DC) instead of surfacing an ambiguity error. -/
theorem c5_multiMatch_counterexample :
    resolveRowState pt0 envAllContain stLoaded = .ok (.str "DC", stLoaded) ∧
    rowContains envAllContain pt0 (stateRow "DC" 1) = true ∧
    rowContains envAllContain pt0 (stateRow "CA" 2) = true := by
  refine ⟨rfl, rfl, rfl⟩

/-- C5 (amended): the state-resolution step raises a KeyError — the
pandas label error from indexing an empty result, not a NoMatchError —
when no state polygon contains the point, and with one or more containing
polygons it silently returns the first STUSPS value in dataset order. -/
theorem c5_resolveState_amended :
    ∀ (p : Pt) (env : Env) (st : PState) (sd : Table),
      st.state_data = some sd →
      (((containsLookup env p sd).rows = [] →
        resolveRowState p env st = .error (.keyError "0")) ∧
       (∀ (v : Val) (vs : List Val),
        (containsLookup env p sd).col "STUSPS" = v :: vs →
        resolveRowState p env st = .ok (v, st))) := by
  intro p env st sd hsd
  have hq := get_states_loaded "STUSPS" none (some p) env st sd hsd
  constructor
  · intro hrows
    unfold resolveRowState
    rw [hq]
    simp only
    show (match ((queryStates "STUSPS" none (some p) env sd).col "STUSPS").get? 0 with
          | none => (Except.error (Err.keyError "0") : Except Err (Val × PState))
          | some v => Except.ok (v, st)) = Except.error (Err.keyError "0")
    have hcol : (queryStates "STUSPS" none (some p) env sd).col "STUSPS" = [] := by
      show (containsLookup env p sd).col "STUSPS" = []
      unfold Table.col
      rw [hrows]
      rfl
    rw [hcol]
    rfl
  · intro v vs hcol
    unfold resolveRowState
    rw [hq]
    simp only
    show (match ((queryStates "STUSPS" none (some p) env sd).col "STUSPS").get? 0 with
          | none => (Except.error (Err.keyError "0") : Except Err (Val × PState))
          | some w => Except.ok (w, st)) = Except.ok (v, st)
    have hcol2 : (queryStates "STUSPS" none (some p) env sd).col "STUSPS" = v :: vs :=
      hcol
    rw [hcol2]
    rfl

/-- Witness for C5: the amended theorem applied to the loaded two-state
dataset, once with a point contained by no state (KeyError) and once with
a point contained by exactly the DC polygon (its STUSPS is returned). -/
theorem c5_resolveState_amended_witness :
    resolveRowState pt0 envZ stLoaded = .error (.keyError "0") ∧
    resolveRowState pt0 envDC stLoaded = .ok (.str "DC", stLoaded) :=
  ⟨(c5_resolveState_amended pt0 envZ stLoaded sdDCCA rfl).1 rfl,
   (c5_resolveState_amended pt0 envDC stLoaded sdDCCA rfl).2 (.str "DC") [] rfl⟩

/-- Counterexample to C6 as stated: with the record {state: ZZ} and only
state enrichment requested, main completes normally and the requested
STUSPS column is silently filled with null — no not-found condition is
raised. -/
theorem c6_silentNull_counterexample :
    main 0 c6heap (Opts.mk "STUSPS" "" "") envDC stLoaded =
      .ok ((0, c6heapFinal), stLoaded) ∧
    (c6heapFinal 0).col "STUSPS" = [Val.null] ∧
    "STUSPS" ∈ (c6heapFinal 0).cols ∧
    (∀ row ∈ sdDCCA.rows, (row.get "STUSPS" == Val.str "ZZ") = false) := by
  refine ⟨rfl, rfl, by decide, by decide⟩

/-- C6 (amended): a state-abbreviation lookup that matches no row returns
an empty result without raising, and merging an empty result column
assigns null to every row — so an invalid abbreviation yields silent
null fields rather than a not-found failure. -/
theorem c6_invalidState_amended :
    (∀ (sd : Table) (v : Val) (env : Env) (st : PState),
      st.state_data = some sd →
      pyTruthyVal v = true →
      (∀ rw ∈ sd.rows, (rw.get "STUSPS" == v) = false) →
      get_states "STUSPS" (some v) none env st =
        .ok (Table.mk ("index" :: sd.cols) [], st)) ∧
    (∀ (t : Table) (row : Row), t.rows = [row] →
      (t.setCol "STUSPS" []).col "STUSPS" = [Val.null]) := by
  constructor
  · intro sd v env st hsd htr hnone
    rw [get_states_loaded "STUSPS" (some v) none env st sd hsd]
    have hrows : (sd.selectReset (fun rw => rw.get "STUSPS" == v)).rows = [] :=
      (Table.selectReset_rows_nil_iff sd _).mpr hnone
    have hsel : sd.selectReset (fun rw => rw.get "STUSPS" == v) =
        Table.mk ("index" :: sd.cols) [] := by
      calc sd.selectReset (fun rw => rw.get "STUSPS" == v)
          = Table.mk (sd.selectReset (fun rw => rw.get "STUSPS" == v)).cols
              (sd.selectReset (fun rw => rw.get "STUSPS" == v)).rows := rfl
        _ = Table.mk ("index" :: sd.cols) [] := by rw [hrows]; rfl
    show Except.ok (queryStates "STUSPS" (some v) none env sd, st) = _
    unfold queryStates
    simp only
    rw [if_pos htr, hsel]
  · intro t row hrow
    unfold Table.setCol Table.col
    simp only
    rw [hrow]
    show [(row.set "STUSPS" ((([] : List Val).get? 0).getD Val.null)).get "STUSPS"]
        = [Val.null]
    rw [Row.get_set_same]
    rfl

/-- Witness for C6: both amended facts at the ZZ record — the lookup in
the two-state dataset returns the empty table, and the merge writes a
null cell. -/
theorem c6_invalidState_amended_witness :
    get_states "STUSPS" (some (Val.str "ZZ")) none envDC stLoaded =
      .ok (Table.mk ("index" :: sdDCCA.cols) [], stLoaded) ∧
    ((c6heap 0).setCol "STUSPS" []).col "STUSPS" = [Val.null] :=
  ⟨c6_invalidState_amended.1 sdDCCA (Val.str "ZZ") envDC stLoaded rfl (by decide)
      (by decide),
   c6_invalidState_amended.2 (c6heap 0) ⟨[("state", Val.str "ZZ")]⟩ rfl⟩

/-- Counterexample to C7 as stated: for an empty record set with neither
a state column nor coordinates, the per-row state-group column check
never runs, so main fails at the concat step (a NameError on pandas under
the module namespace) instead of the missing-columns error. -/
theorem c7_emptyData_counterexample :
    main 0 c7heap (Opts.mk "STUSPS" "" "") envPy stLoaded =
      .error (.nameError "pandas") ∧
    (∀ msg, (Err.nameError "pandas") ≠ .exn msg) := by
  constructor
  · rfl
  · intro msg h
    exact Err.noConfusion h

/-- C7 (amended): the missing-columns failures hold as stated for
non-empty record sets (state group) and for the zipcode group whenever
the state group is disabled or, being enabled, completes (the zipcode
check then reads the record set as already mutated by the state merge);
the state-group check is per-row, so empty record sets bypass it. -/
theorem c7_missingColumns_amended :
    (∀ (r : Nat) (heap : Nat → Table) (opts : Opts) (env : Env) (st : PState)
       (row : Row) (rest : List Row),
       pyTruthy opts.state_fields = true →
       (heap r).rows = row :: rest →
       "state" ∉ (heap r).cols →
       ¬ ("latitude" ∈ (heap r).cols ∧ "longitude" ∈ (heap r).cols) →
       main r heap opts env st =
         .error (.exn "unable to process state data without latitude and longitude columns")) ∧
    (∀ (r : Nat) (heap : Nat → Table) (opts : Opts) (env : Env) (st : PState),
       pyTruthy opts.state_fields = false →
       pyTruthy opts.zipcode_fields = true →
       ¬ ("latitude" ∈ (heap r).cols ∧ "longitude" ∈ (heap r).cols) →
       main r heap opts env st =
         .error (.exn "unable to process zipcode data without latitude and longitude columns")) ∧
    (∀ (r : Nat) (heap : Nat → Table) (opts : Opts) (env : Env) (st : PState)
       (heap1 : Nat → Table) (st1 : PState),
       pyTruthy opts.state_fields = true →
       pyTruthy opts.zipcode_fields = true →
       stateGroup r heap opts.state_fields env st = .ok (heap1, st1) →
       ¬ ("latitude" ∈ (heap1 r).cols ∧ "longitude" ∈ (heap1 r).cols) →
       main r heap opts env st =
         .error (.exn "unable to process zipcode data without latitude and longitude columns")) := by
  refine ⟨?_, ?_, ?_⟩
  · intro r heap opts env st row rest hs hrows hnostate hnocoord
    have hsl : stateLoop (heap r).cols (heap r).rows env st [] =
        .error (.exn "unable to process state data without latitude and longitude columns") := by
      rw [hrows]
      unfold stateLoop
      rw [if_neg hnostate, if_neg hnocoord]
    have hsg : stateGroup r heap opts.state_fields env st =
        .error (.exn "unable to process state data without latitude and longitude columns") := by
      unfold stateGroup
      rw [hsl]
    unfold main
    rw [if_pos hs, hsg]
  · intro r heap opts env st hs hz hnocoord
    have hzg : zipcodeGroup r heap opts.zipcode_fields env st =
        .error (.exn "unable to process zipcode data without latitude and longitude columns") := by
      unfold zipcodeGroup
      rw [if_pos hnocoord]
    unfold main
    rw [if_neg (by simp [hs])]
    simp only
    rw [if_pos hz, hzg]
  · intro r heap opts env st heap1 st1 hs hz hsg hnocoord
    have hzg : zipcodeGroup r heap1 opts.zipcode_fields env st1 =
        .error (.exn "unable to process zipcode data without latitude and longitude columns") := by
      unfold zipcodeGroup
      rw [if_pos hnocoord]
    unfold main
    rw [if_pos hs, hsg]
    simp only
    rw [if_pos hz, hzg]

/-- Witness for C7: the three amended implications at concrete record
sets — a one-row set with only an unrelated column (state group), a set
without coordinates with only zipcode enrichment requested, and a
one-row state-column set whose state group completes before the zipcode
check fails. -/
theorem c7_missingColumns_amended_witness :
    main 0 c7heapB (Opts.mk "STUSPS" "" "") envDC st0 =
      .error (.exn "unable to process state data without latitude and longitude columns") ∧
    main 0 c7heap (Opts.mk "" "ZCTA5CE10" "") envDC st0 =
      .error (.exn "unable to process zipcode data without latitude and longitude columns") ∧
    main 0 c7heapC (Opts.mk "STUSPS" "ZCTA5CE10" "") envDC stLoaded =
      .error (.exn "unable to process zipcode data without latitude and longitude columns") :=
  ⟨c7_missingColumns_amended.1 0 c7heapB (Opts.mk "STUSPS" "" "") envDC st0
      ⟨[("x", Val.num 1)]⟩ [] rfl rfl (by decide) (by decide),
   c7_missingColumns_amended.2.1 0 c7heap (Opts.mk "" "ZCTA5CE10" "") envDC st0
      rfl rfl (by decide),
   c7_missingColumns_amended.2.2 0 c7heapC (Opts.mk "STUSPS" "ZCTA5CE10" "") envDC
      stLoaded c7heapCFinal stLoaded rfl rfl rfl (by decide)⟩

/-- Counterexample to C4 as stated: a failed archive write leaves the
partial cachedir/states.zip in place and raises FileNotFoundError from
the cleanup of the wrong (extensionless) path — no partial-artifact
removal, no DownloadError, no temp-and-rename. -/
theorem c4_partialArtifact_counterexample :
    downloadStates { envZ with writeStatesOk := false } st0 =
      ({ st0 with net := 1, fs := { fs0 with statesZip := some .part } },
        .error (.fileNotFound "cachedir/states")) := by
  rfl

/-- C4 (amended): with urllib resolved, a fetch (urlopen) failure
propagates the URL error with no file written; a body write failure
leaves the partial archive at its final path (the write goes directly to
it, with no temp location or rename) and the except handler, aimed at
the extensionless path, raises FileNotFoundError when that path is
absent — and when a stray file happens to sit there, the handler deletes
it and the error is swallowed, still leaving the partial archive.  The
states and zipcodes blocks behave identically. -/
theorem c4_download_amended :
    ∀ (env : Env) (st : PState),
      env.libBound "urllib" = true →
      (((env.fetchStatesOk = false →
          downloadStates env st =
            ({ st with net := st.net + 1 }, .error .urlError)) ∧
        (env.fetchStatesOk = true → env.writeStatesOk = false →
          st.fs.strayStates = false →
          (downloadStates env st).1.fs.statesZip = some .part ∧
          (downloadStates env st).2 = .error (.fileNotFound "cachedir/states")) ∧
        (env.fetchStatesOk = true → env.writeStatesOk = false →
          st.fs.strayStates = true →
          (downloadStates env st).1.fs.statesZip = some .part ∧
          (downloadStates env st).2 = .ok ())) ∧
       ((env.fetchZipOk = false →
          downloadZipcodes env st =
            ({ st with net := st.net + 1 }, .error .urlError)) ∧
        (env.fetchZipOk = true → env.writeZipOk = false →
          st.fs.strayZip = false →
          (downloadZipcodes env st).1.fs.zipZip = some .part ∧
          (downloadZipcodes env st).2 = .error (.fileNotFound "cachedir/zipcodes")) ∧
        (env.fetchZipOk = true → env.writeZipOk = false →
          st.fs.strayZip = true →
          (downloadZipcodes env st).1.fs.zipZip = some .part ∧
          (downloadZipcodes env st).2 = .ok ()))) := by
  intro env st hu
  refine ⟨⟨?_, ?_, ?_⟩, ?_, ?_, ?_⟩
  · intro hf
    unfold downloadStates
    rw [hu, hf]
    simp
  · intro hf hw hs
    unfold downloadStates
    rw [hu, hf, hw]
    simp [hs]
  · intro hf hw hs
    unfold downloadStates
    rw [hu, hf, hw]
    simp [hs]
  · intro hf
    unfold downloadZipcodes
    rw [hu, hf]
    simp
  · intro hf hw hs
    unfold downloadZipcodes
    rw [hu, hf, hw]
    simp [hs]
  · intro hf hw hs
    unfold downloadZipcodes
    rw [hu, hf, hw]
    simp [hs]

/-- Witness for C4: the amended download behavior applied to a concrete
failing-write environment over a fresh cache. -/
theorem c4_download_amended_witness :
    (((envWriteFail.fetchStatesOk = false →
        downloadStates envWriteFail st0 =
          ({ st0 with net := st0.net + 1 }, .error .urlError)) ∧
      (envWriteFail.fetchStatesOk = true → envWriteFail.writeStatesOk = false →
        st0.fs.strayStates = false →
        (downloadStates envWriteFail st0).1.fs.statesZip = some .part ∧
        (downloadStates envWriteFail st0).2 = .error (.fileNotFound "cachedir/states")) ∧
      (envWriteFail.fetchStatesOk = true → envWriteFail.writeStatesOk = false →
        st0.fs.strayStates = true →
        (downloadStates envWriteFail st0).1.fs.statesZip = some .part ∧
        (downloadStates envWriteFail st0).2 = .ok ())) ∧
     ((envWriteFail.fetchZipOk = false →
        downloadZipcodes envWriteFail st0 =
          ({ st0 with net := st0.net + 1 }, .error .urlError)) ∧
      (envWriteFail.fetchZipOk = true → envWriteFail.writeZipOk = false →
        st0.fs.strayZip = false →
        (downloadZipcodes envWriteFail st0).1.fs.zipZip = some .part ∧
        (downloadZipcodes envWriteFail st0).2 = .error (.fileNotFound "cachedir/zipcodes")) ∧
      (envWriteFail.fetchZipOk = true → envWriteFail.writeZipOk = false →
        st0.fs.strayZip = true →
        (downloadZipcodes envWriteFail st0).1.fs.zipZip = some .part ∧
        (downloadZipcodes envWriteFail st0).2 = .ok ()))) :=
  c4_download_amended envWriteFail st0 rfl

end Census
